import Mathlib

/-!
Shallow embedding of `src/data/processer/pgsql.py` (class `Pgsql`), the
PostgreSQL persistence layer of the orc20 indexer.

Modelling conventions:
* Each table is a list of rows; a row is a Lean structure whose fields are
  the table's columns (`DECIMAL(38,18)` quantities become `Int` — this layer
  stores and compares them, never computes with them; `JSON` payloads become
  opaque `String`s).
* Every `save_*` issues `INSERT .. ON CONFLICT (id) DO UPDATE SET <all
  columns> = EXCLUDED.<col>`: on key conflict the whole row is replaced,
  otherwise the row is inserted.  `upsertBy` embeds that statement.
* Connectivity / query-execution faults are modelled by a `fault` argument
  (for batched statements, an `Option Nat` naming the row at which the
  backend faults); a faulted call raises, i.e. returns `.error` with the
  message the Python code builds, and — PostgreSQL statements being atomic —
  leaves the store unchanged.
* `aiopg`'s `fetchall` always returns a list (never `None`); the Python code
  nevertheless tests `if rows is None`.  The embedding mirrors this by
  wrapping the fetched list in `some` and keeping the dead `none` branch.
-/

namespace Orc20

inductive EventType
  | TRANSFER
  | INSCRIBE
deriving DecidableEq

/-- Row of table `event` (pgsql.py lines 23–40). -/
structure Event where
  id : String
  event_type : EventType
  block_height : Int
  block_index : Int
  timestamp : Int
  inscription_id : String
  inscription_number : Int
  sender : String
  receiver : String
  content : String
  operation : String
  function_id : Int
  valid : Bool
  error : String
deriving DecidableEq

/-- Row of table `pending_inscriptions` (lines 42–48); `id` is an address. -/
structure Pending_Inscriptions where
  id : String
  inscriptions : List String
deriving DecidableEq

/-- Row of table `token` (lines 50–80); `id` is the deploying inscription number. -/
structure Token where
  id : Int
  tick : String
  max : Int
  lim : Int
  dec : Int
  ug : Bool
  mp : Bool
  deployer : String
  deploy_time : Int
  inscription_id : String
  first_number : Int
  first_id : String
  first_time : Int
  last_number : Int
  last_id : String
  last_time : Int
  minted : Int
  burned : Int
  circulating : Int
  holders : Int
  last_upgrade_time : Int
  upgrade_records : List String
deriving DecidableEq

/-- Row of table `balance` (lines 86–101); `id` is the composite string
`{address}-{tid}`. -/
structure Balance where
  id : String
  tick : String
  tid : Int
  inscription_id : String
  address : String
  balance : Int
  available_balance : Int
  transferable_balance : Int
  original_balance : Int
deriving DecidableEq

/-- Row of table `otc` (lines 107–131); `id` is the deploying inscription number. -/
structure OTC where
  id : Int
  tick1 : String
  tid1 : Int
  supply : Int
  tick2 : String
  tid2 : Int
  er : Int
  mba : Int
  dl : Int
  owner : String
  deploy_time : Int
  inscription_id : String
  valid : Bool
  success : Bool
  received : Int
  execute_id : String
deriving DecidableEq

/-- Row of table `otc_record` (lines 139–152); `id` is the settling event's id. -/
structure OTC_Record where
  id : String
  oid : Int
  inscription_id : String
  address : String
  amount_out : Int
  amount_in : Int
deriving DecidableEq

/-- The six persisted tables of the store, each as its list of rows. -/
structure DB where
  event : List Event
  pending_inscriptions : List Pending_Inscriptions
  token : List Token
  balance : List Balance
  otc : List OTC
  otc_record : List OTC_Record
deriving DecidableEq

def emptyDB : DB :=
  { event := [], pending_inscriptions := [], token := [], balance := [],
    otc := [], otc_record := [] }

/-- `INSERT .. ON CONFLICT (key) DO UPDATE SET <every column> = EXCLUDED`:
if a row with the incoming key exists it is replaced whole, otherwise the
row is appended. -/
def upsertBy {α κ : Type} [DecidableEq κ] (key : α → κ) (r : α) (rows : List α) :
    List α :=
  if rows.any (fun x => key x = key r) then
    rows.map (fun x => if key x = key r then r else x)
  else
    rows ++ [r]

-- ==================== save ====================

def saveEventPure (st : DB) (e : Event) : DB :=
  { st with event := upsertBy Event.id e st.event }

def savePendingPure (st : DB) (p : Pending_Inscriptions) : DB :=
  { st with pending_inscriptions := upsertBy Pending_Inscriptions.id p st.pending_inscriptions }

def saveTokenPure (st : DB) (t : Token) : DB :=
  { st with token := upsertBy Token.id t st.token }

def saveBalancePure (st : DB) (b : Balance) : DB :=
  { st with balance := upsertBy Balance.id b st.balance }

def saveOtcPure (st : DB) (o : OTC) : DB :=
  { st with otc := upsertBy OTC.id o st.otc }

def saveOtcRecordPure (st : DB) (r : OTC_Record) : DB :=
  { st with otc_record := upsertBy OTC_Record.id r st.otc_record }

/-- `Pgsql.save_event` (lines 243–255): one upsert statement; on fault the
exception is logged and re-raised. -/
def save_event (fault : Bool) (st : DB) (e : Event) : Except String DB :=
  if fault then .error "Pgsql::save_event: Failed to save event"
  else .ok (saveEventPure st e)

/-- `Pgsql.save_pending_inscription` (lines 257–271). -/
def save_pending_inscription (fault : Bool) (st : DB) (p : Pending_Inscriptions) :
    Except String DB :=
  if fault then .error "Pgsql::save_pending_inscription: Failed to save pending inscription"
  else .ok (savePendingPure st p)

/-- `Pgsql.save_token` (lines 215–227). -/
def save_token (fault : Bool) (st : DB) (t : Token) : Except String DB :=
  if fault then .error "Pgsql::save_token: Failed to save token"
  else .ok (saveTokenPure st t)

/-- `Pgsql.save_balance` (lines 273–285). -/
def save_balance (fault : Bool) (st : DB) (b : Balance) : Except String DB :=
  if fault then .error "Pgsql::save_balance: Failed to save balance"
  else .ok (saveBalancePure st b)

/-- `Pgsql.save_otc` (lines 319–331). -/
def save_otc (fault : Bool) (st : DB) (o : OTC) : Except String DB :=
  if fault then .error "Pgsql::save_otc: Failed to save otc"
  else .ok (saveOtcPure st o)

/-- `Pgsql.save_otc_record` (lines 333–345). -/
def save_otc_record (fault : Bool) (st : DB) (r : OTC_Record) : Except String DB :=
  if fault then .error "Pgsql::save_otc_record: Failed to save otc record"
  else .ok (saveOtcRecordPure st r)

def applyBalances (st : DB) (bs : List Balance) : DB :=
  { st with balance := bs.foldl (fun rows b => upsertBy Balance.id b rows) st.balance }

def applyTokens (st : DB) (ts : List Token) : DB :=
  { st with token := ts.foldl (fun rows t => upsertBy Token.id t rows) st.token }

/-- `Pgsql.batch_save_balances` (lines 287–301): the whole batch goes into
ONE multi-row `INSERT .. ON CONFLICT` statement.  `failAt = some k` with `k`
inside the batch models the backend faulting while processing row `k`;
PostgreSQL statements are atomic, so the statement is rolled back whole and
the raised exception leaves the store as it was. -/
def batch_save_balances (failAt : Option Nat) (st : DB) (bs : List Balance) :
    Except String DB :=
  match failAt with
  | some k =>
      if k < bs.length then .error "Pgsql::batch_save_balances: Failed to batch save balances"
      else .ok (applyBalances st bs)
  | none => .ok (applyBalances st bs)

/-- `Pgsql.batch_save_balances_in_dict` (lines 303–317): identical statement,
rows arriving as fully-populated column dicts (modelled as the row itself). -/
def batch_save_balances_in_dict (failAt : Option Nat) (st : DB) (bs : List Balance) :
    Except String DB :=
  match failAt with
  | some k =>
      if k < bs.length then .error "Pgsql::batch_save_balances_in_dict: Failed to batch save balances"
      else .ok (applyBalances st bs)
  | none => .ok (applyBalances st bs)

/-- `Pgsql.batch_save_tokens_in_dict` (lines 229–241). -/
def batch_save_tokens_in_dict (failAt : Option Nat) (st : DB) (ts : List Token) :
    Except String DB :=
  match failAt with
  | some k =>
      if k < ts.length then .error "Pgsql::batch_save_tokens_in_dict: Failed to save token"
      else .ok (applyTokens st ts)
  | none => .ok (applyTokens st ts)

-- ==================== lifecycle ====================

/-- `Pgsql.clear_all_tables` (lines 204–211): drops and recreates `token`,
`balance`, `pending_inscriptions`, `otc` and `otc_record` — and only those
five; the `event` table is never cleared. -/
def clear_all_tables (st : DB) : DB :=
  { st with token := [], balance := [], pending_inscriptions := [],
            otc := [], otc_record := [] }

-- ==================== get ====================

/-- `Pgsql.get_token` (lines 349–361): point lookup by primary key; `none`
for no row, raised exception on fault. -/
def get_token (fault : Bool) (st : DB) (token_id : Int) : Except String (Option Token) :=
  if fault then .error "Pgsql::get_token: Failed to get token"
  else .ok (st.token.find? (fun t => t.id = token_id))

/-- `Pgsql.get_pending_inscription` (lines 363–379). -/
def get_pending_inscription (fault : Bool) (st : DB) (address : String) :
    Except String (Option Pending_Inscriptions) :=
  if fault then .error "Pgsql::get_pending_inscription: Failed to get pending inscriptions"
  else .ok (st.pending_inscriptions.find? (fun p => p.id = address))

/-- `Pgsql.get_balance` (lines 381–394): builds the composite key
`{address}-{token_id}` and looks it up. -/
def get_balance (fault : Bool) (st : DB) (address : String) (token_id : Int) :
    Except String (Option Balance) :=
  let balance_id := s!"{address}-{token_id}"
  if fault then .error "Pgsql::get_balance: Failed to get balance"
  else .ok (st.balance.find? (fun b => b.id = balance_id))

/-- `Pgsql.get_otc` (lines 396–408). -/
def get_otc (fault : Bool) (st : DB) (otc_id : Int) : Except String (Option OTC) :=
  if fault then .error "Pgsql::get_otc: Failed to get otc"
  else .ok (st.otc.find? (fun o => o.id = otc_id))

/-- `Pgsql.get_otc_records` (lines 410–427): `fetchall` always yields a list,
embedded as `some (filter ..)`; the Python `if rows is None` branch is kept. -/
def get_otc_records (fault : Bool) (st : DB) (oid : Int) :
    Except String (Option (List OTC_Record)) :=
  if fault then .error "Pgsql::get_otc_records: Failed to get otc records"
  else
    match some (st.otc_record.filter (fun r => r.oid = oid)) with
    | none => .ok none
    | some recs => .ok (some recs)

/-- Ordering used by `get_events_by_block_height`: Python's
`sorted(key=lambda x: x.block_index)`. -/
def evLe (a b : Event) : Prop := a.block_index ≤ b.block_index

instance : DecidableRel evLe := fun a b =>
  inferInstanceAs (Decidable (a.block_index ≤ b.block_index))

instance : IsTotal Event evLe := ⟨fun a b => Int.le_total a.block_index b.block_index⟩

instance : IsTrans Event evLe := ⟨fun _ _ _ hab hbc => le_trans hab hbc⟩

/-- `Pgsql.get_events_by_block_height` (lines 429–448): select the rows with
the given height, keep the dead `None` check, sort ascending by
`block_index`. -/
def get_events_by_block_height (fault : Bool) (st : DB) (block_height : Int) :
    Except String (Option (List Event)) :=
  if fault then .error "Pgsql::get_events_by_block_height: Failed to get events"
  else
    match some (st.event.filter (fun e => e.block_height = block_height)) with
    | none => .ok none
    | some evs => .ok (some (evs.insertionSort evLe))

-- ==================== generic upsert lemmas ====================

section UpsertLemmas

variable {α κ : Type} [DecidableEq κ] (key : α → κ) (r : α)

theorem upsertBy_pos (rows : List α) (hex : ∃ x ∈ rows, key x = key r) :
    upsertBy key r rows = rows.map (fun x => if key x = key r then r else x) := by
  unfold upsertBy
  rw [if_pos]
  rw [List.any_eq_true]
  obtain ⟨x, hx, hk⟩ := hex
  exact ⟨x, hx, decide_eq_true hk⟩

theorem upsertBy_neg (rows : List α) (hex : ∀ x ∈ rows, key x ≠ key r) :
    upsertBy key r rows = rows ++ [r] := by
  unfold upsertBy
  rw [if_neg]
  intro hany
  rw [List.any_eq_true] at hany
  obtain ⟨x, hx, hk⟩ := hany
  exact hex x hx (of_decide_eq_true hk)

theorem mem_upsertBy_self (rows : List α) : r ∈ upsertBy key r rows := by
  by_cases hex : ∃ x ∈ rows, key x = key r
  · rw [upsertBy_pos key r rows hex]
    obtain ⟨x, hx, hk⟩ := hex
    exact List.mem_map.mpr ⟨x, hx, by rw [if_pos hk]⟩
  · push_neg at hex
    rw [upsertBy_neg key r rows hex]
    exact List.mem_append.mpr (Or.inr (List.mem_singleton.mpr rfl))

theorem upsertBy_mem_eq (rows : List α) {x : α} (hx : x ∈ upsertBy key r rows)
    (hk : key x = key r) : x = r := by
  by_cases hex : ∃ y ∈ rows, key y = key r
  · rw [upsertBy_pos key r rows hex] at hx
    obtain ⟨y, _, hy⟩ := List.mem_map.mp hx
    by_cases h : key y = key r
    · rw [if_pos h] at hy
      exact hy.symm
    · rw [if_neg h] at hy
      exact absurd (hy ▸ hk) h
  · push_neg at hex
    rw [upsertBy_neg key r rows hex] at hx
    rcases List.mem_append.mp hx with h | h
    · exact absurd hk (hex x h)
    · exact List.mem_singleton.mp h

theorem find?_map_replace (rows : List α) :
    (rows.map (fun x => if key x = key r then r else x)).find?
        (fun x => key x = key r) =
      if rows.any (fun x => key x = key r) then some r else none := by
  induction rows with
  | nil => simp
  | cons y ys ih =>
      by_cases hy : key y = key r
      · simp [hy]
      · simp only [List.map_cons, List.any_cons, if_neg hy]
        rw [List.find?_cons_of_neg _ (by simpa using hy), ih]
        simp [hy]

theorem find?_upsertBy (rows : List α) :
    (upsertBy key r rows).find? (fun x => key x = key r) = some r := by
  by_cases hex : ∃ x ∈ rows, key x = key r
  · rw [upsertBy_pos key r rows hex, find?_map_replace]
    rw [if_pos]
    rw [List.any_eq_true]
    obtain ⟨x, hx, hk⟩ := hex
    exact ⟨x, hx, decide_eq_true hk⟩
  · push_neg at hex
    rw [upsertBy_neg key r rows hex]
    rw [List.find?_append]
    have h1 : rows.find? (fun x => key x = key r) = none :=
      List.find?_eq_none.mpr (fun x hx => by simpa using hex x hx)
    rw [h1]
    simp

theorem map_key_upsertBy_pos (rows : List α) (hex : ∃ x ∈ rows, key x = key r) :
    (upsertBy key r rows).map key = rows.map key := by
  rw [upsertBy_pos key r rows hex, List.map_map]
  refine List.map_congr_left (fun x _ => ?_)
  by_cases h : key x = key r
  · simp [h]
  · simp [h]

theorem upsertBy_idem (rows : List α) :
    upsertBy key r (upsertBy key r rows) = upsertBy key r rows := by
  have hex : ∃ x ∈ upsertBy key r rows, key x = key r :=
    ⟨r, mem_upsertBy_self key r rows, rfl⟩
  rw [upsertBy_pos key r _ hex]
  have hid : ∀ x ∈ upsertBy key r rows, (if key x = key r then r else x) = x := by
    intro x hx
    by_cases h : key x = key r
    · rw [if_pos h, upsertBy_mem_eq key r rows hx h]
    · rw [if_neg h]
  calc (upsertBy key r rows).map (fun x => if key x = key r then r else x)
      = (upsertBy key r rows).map id := List.map_congr_left hid
    _ = upsertBy key r rows := List.map_id _

theorem count_key_upsertBy (rows : List α) (hnd : (rows.map key).Nodup) :
    ((upsertBy key r rows).map key).count (key r) = 1 := by
  by_cases hex : ∃ x ∈ rows, key x = key r
  · rw [map_key_upsertBy_pos key r rows hex]
    obtain ⟨x, hx, hk⟩ := hex
    exact List.count_eq_one_of_mem hnd (hk ▸ List.mem_map_of_mem key hx)
  · push_neg at hex
    rw [upsertBy_neg key r rows hex, List.map_append, List.count_append]
    have h0 : (rows.map key).count (key r) = 0 := by
      rw [List.count_eq_zero]
      intro hmem
      obtain ⟨x, hx, hk⟩ := List.mem_map.mp hmem
      exact hex x hx hk
    rw [h0]
    simp

theorem nodup_map_key_upsertBy (rows : List α) (hnd : (rows.map key).Nodup) :
    ((upsertBy key r rows).map key).Nodup := by
  by_cases hex : ∃ x ∈ rows, key x = key r
  · rw [map_key_upsertBy_pos key r rows hex]
    exact hnd
  · push_neg at hex
    rw [upsertBy_neg key r rows hex, List.map_append]
    rw [List.nodup_append]
    refine ⟨hnd, List.nodup_singleton _, ?_⟩
    intro k hk hk1
    obtain ⟨x, hx, hxk⟩ := List.mem_map.mp hk
    simp only [List.map_singleton, List.mem_singleton] at hk1
    exact hex x hx (hxk.trans hk1)

end UpsertLemmas

-- ==================== reachable states ====================

/-- States of the store reachable from an empty store through this layer's
successful write operations. -/
inductive Reachable : DB → Prop
  | empty : Reachable emptyDB
  | saveEvent (st : DB) (e : Event) : Reachable st → Reachable (saveEventPure st e)
  | savePending (st : DB) (p : Pending_Inscriptions) :
      Reachable st → Reachable (savePendingPure st p)
  | saveToken (st : DB) (t : Token) : Reachable st → Reachable (saveTokenPure st t)
  | saveBalance (st : DB) (b : Balance) : Reachable st → Reachable (saveBalancePure st b)
  | saveOtc (st : DB) (o : OTC) : Reachable st → Reachable (saveOtcPure st o)
  | saveOtcRecord (st : DB) (r : OTC_Record) :
      Reachable st → Reachable (saveOtcRecordPure st r)
  | batchBalances (st : DB) (bs : List Balance) :
      Reachable st → Reachable (applyBalances st bs)
  | batchTokens (st : DB) (ts : List Token) :
      Reachable st → Reachable (applyTokens st ts)
  | clearAll (st : DB) : Reachable st → Reachable (clear_all_tables st)

-- ==================== schema with column defaults ====================

/-- A stored cell value; `null` is SQL NULL. -/
inductive Value
  | null
  | num (n : Int)
  | str (s : String)
  | boolV (b : Bool)
  | arr (l : List String)
deriving DecidableEq

inductive ColType
  | bigintTy
  | intTy
  | stringTy
  | decimalTy
  | boolTy
  | arrayTy
  | jsonTy
  | enumTy
deriving DecidableEq

/-- One column declaration: name, SQL type, and the declared client-side
`default=` value if any (pgsql.py passes `default=` only on some columns). -/
structure Col where
  name : String
  ty : ColType
  dflt : Option Value
deriving DecidableEq

/-- Columns of table `event` (lines 23–40): no declared defaults. -/
def eventColumns : List Col :=
  [⟨"id", .stringTy, none⟩, ⟨"event_type", .enumTy, none⟩,
   ⟨"block_height", .bigintTy, none⟩, ⟨"block_index", .bigintTy, none⟩,
   ⟨"timestamp", .bigintTy, none⟩, ⟨"inscription_id", .stringTy, none⟩,
   ⟨"inscription_number", .bigintTy, none⟩, ⟨"sender", .stringTy, none⟩,
   ⟨"receiver", .stringTy, none⟩, ⟨"content", .jsonTy, none⟩,
   ⟨"operation", .stringTy, none⟩, ⟨"function_id", .bigintTy, none⟩,
   ⟨"valid", .boolTy, none⟩, ⟨"error", .stringTy, none⟩]

/-- Columns of table `pending_inscriptions` (lines 42–48). -/
def pendingColumns : List Col :=
  [⟨"id", .stringTy, none⟩, ⟨"inscriptions", .arrayTy, some (.arr [])⟩]

/-- Columns of table `token` (lines 50–80): defaults only on the mint/upgrade
bookkeeping columns. -/
def tokenColumns : List Col :=
  [⟨"id", .bigintTy, none⟩, ⟨"tick", .stringTy, none⟩,
   ⟨"max", .decimalTy, none⟩, ⟨"lim", .decimalTy, none⟩,
   ⟨"dec", .intTy, none⟩, ⟨"ug", .boolTy, none⟩, ⟨"mp", .boolTy, none⟩,
   ⟨"deployer", .stringTy, none⟩, ⟨"deploy_time", .bigintTy, none⟩,
   ⟨"inscription_id", .stringTy, none⟩,
   ⟨"first_number", .bigintTy, some (.num 0)⟩,
   ⟨"first_id", .stringTy, some (.str "")⟩,
   ⟨"first_time", .bigintTy, some (.num 0)⟩,
   ⟨"last_number", .bigintTy, some (.num 0)⟩,
   ⟨"last_id", .stringTy, some (.str "")⟩,
   ⟨"last_time", .bigintTy, some (.num 0)⟩,
   ⟨"minted", .decimalTy, some (.num 0)⟩,
   ⟨"burned", .decimalTy, some (.num 0)⟩,
   ⟨"circulating", .decimalTy, some (.num 0)⟩,
   ⟨"holders", .bigintTy, some (.num 0)⟩,
   ⟨"last_upgrade_time", .bigintTy, some (.num 0)⟩,
   ⟨"upgrade_records", .arrayTy, some (.arr [])⟩]

/-- Columns of table `balance` (lines 86–101): no declared defaults. -/
def balanceColumns : List Col :=
  [⟨"id", .stringTy, none⟩, ⟨"tick", .stringTy, none⟩,
   ⟨"tid", .bigintTy, none⟩, ⟨"inscription_id", .stringTy, none⟩,
   ⟨"address", .stringTy, none⟩, ⟨"balance", .decimalTy, none⟩,
   ⟨"available_balance", .decimalTy, none⟩,
   ⟨"transferable_balance", .decimalTy, none⟩,
   ⟨"original_balance", .decimalTy, none⟩]

/-- Columns of table `otc` (lines 107–131): no declared defaults. -/
def otcColumns : List Col :=
  [⟨"id", .bigintTy, none⟩, ⟨"tick1", .stringTy, none⟩,
   ⟨"tid1", .bigintTy, none⟩, ⟨"supply", .decimalTy, none⟩,
   ⟨"tick2", .stringTy, none⟩, ⟨"tid2", .bigintTy, none⟩,
   ⟨"er", .decimalTy, none⟩, ⟨"mba", .decimalTy, none⟩,
   ⟨"dl", .bigintTy, none⟩, ⟨"owner", .stringTy, none⟩,
   ⟨"deploy_time", .bigintTy, none⟩, ⟨"inscription_id", .stringTy, none⟩,
   ⟨"valid", .boolTy, none⟩, ⟨"success", .boolTy, none⟩,
   ⟨"received", .decimalTy, none⟩, ⟨"execute_id", .stringTy, none⟩]

/-- Columns of table `otc_record` (lines 139–152): no declared defaults. -/
def otcRecordColumns : List Col :=
  [⟨"id", .stringTy, none⟩, ⟨"oid", .bigintTy, none⟩,
   ⟨"inscription_id", .stringTy, none⟩, ⟨"address", .stringTy, none⟩,
   ⟨"amount_out", .decimalTy, none⟩, ⟨"amount_in", .decimalTy, none⟩]

/-- Insert of a fresh row where the caller provides only some columns: each
unspecified column takes its declared default if one exists, and SQL NULL
otherwise. -/
def insertRow (cols : List Col) (provided : List (String × Value)) :
    List (String × Value) :=
  cols.map (fun c =>
    (c.name, match provided.lookup c.name with
      | some v => v
      | none => c.dflt.getD Value.null))

-- ==================== sample rows ====================

def evA : Event :=
  { id := "evt-a", event_type := .TRANSFER, block_height := 100,
    block_index := 2, timestamp := 1700000000, inscription_id := "insc-a",
    inscription_number := 20, sender := "addr-s", receiver := "addr-r",
    content := "payload-a", operation := "transfer", function_id := 0,
    valid := true, error := "" }

def evB : Event :=
  { id := "evt-b", event_type := .INSCRIBE, block_height := 100,
    block_index := 1, timestamp := 1700000000, inscription_id := "insc-b",
    inscription_number := 21, sender := "addr-s", receiver := "addr-r",
    content := "payload-b", operation := "mint", function_id := 1,
    valid := true, error := "" }

def evDup1 : Event := { evA with id := "dup-1", block_height := 1, block_index := 1 }

def evDup2 : Event := { evA with id := "dup-2", block_height := 1, block_index := 1 }

def tokA : Token :=
  { id := 7, tick := "orc", max := 21000000, lim := 1000, dec := 18,
    ug := true, mp := false, deployer := "addr-d",
    deploy_time := 1700000000, inscription_id := "insc-7",
    first_number := 0, first_id := "", first_time := 0, last_number := 0,
    last_id := "", last_time := 0, minted := 0, burned := 0,
    circulating := 0, holders := 0, last_upgrade_time := 0,
    upgrade_records := [] }

def balOld : Balance :=
  { id := "addr1-7", tick := "orc", tid := 7, inscription_id := "insc-7",
    address := "addr1", balance := 100, available_balance := 100,
    transferable_balance := 0, original_balance := 100 }

def balNew : Balance :=
  { balOld with available_balance := 40, transferable_balance := 60 }

def pendA : Pending_Inscriptions := { id := "addr1", inscriptions := ["i1", "i2"] }

def otcA : OTC :=
  { id := 11, tick1 := "orc", tid1 := 7, supply := 1000, tick2 := "usd",
    tid2 := 8, er := 2, mba := 10, dl := 1800000000, owner := "addr-o",
    deploy_time := 1700000001, inscription_id := "insc-11", valid := true,
    success := false, received := 0, execute_id := "" }

def recA : OTC_Record :=
  { id := "evt-x", oid := 11, inscription_id := "insc-12",
    address := "addr2", amount_out := 5, amount_in := 10 }

/-- Store holding the two same-`(block_height, block_index)` events, reached
by two `save_event` calls. -/
def dbDup : DB := saveEventPure (saveEventPure emptyDB evDup1) evDup2

/-- Store holding `evA` then `evB` (the spec's index-2-saved-first example). -/
def dbAB : DB := saveEventPure (saveEventPure emptyDB evA) evB

-- ==================== claims ====================

/-- C1: for every block height `h`, `get_events_by_block_height h` returns
exactly the stored events whose `block_height` equals `h` (as a
permutation of the selected rows) sorted ascending by `block_index`,
whatever order the store's event list is in — i.e. regardless of the order
in which the events were saved. -/
theorem c1_get_events_by_block_height_sorted (st : DB) (h : Int) (l : List Event)
    (hres : get_events_by_block_height false st h = Except.ok (some l)) :
    List.Sorted (fun a b => a.block_index ≤ b.block_index) l ∧
    l.Perm (st.event.filter (fun e => e.block_height = h)) := by
  have hred : get_events_by_block_height false st h =
      Except.ok (some ((st.event.filter
        (fun e => e.block_height = h)).insertionSort evLe)) := rfl
  rw [hred] at hres
  simp only [Except.ok.injEq, Option.some.injEq] at hres
  rw [← hres]
  exact ⟨List.sorted_insertionSort evLe _, List.perm_insertionSort evLe _⟩

/-- C1 witness: events with `(height 100, index 2)` then `(height 100,
index 1)` saved in that order come back index-1 first. -/
theorem c1_witness :
    List.Sorted (fun a b : Event => a.block_index ≤ b.block_index) [evB, evA] ∧
    List.Perm [evB, evA] (dbAB.event.filter (fun e => e.block_height = 100)) :=
  c1_get_events_by_block_height_sorted dbAB 100 [evB, evA] rfl

/-- C2: `save_balance` / `save_token` are whole-row replace-on-conflict:
after the call the row found under the incoming instance's primary key is
the incoming instance itself, and every stored row carrying that key equals
the incoming instance — no column of a previous row survives. -/
theorem c2_save_overwrites_whole_row (st : DB) (b : Balance) (t : Token) :
    (saveBalancePure st b).balance.find? (fun x => x.id = b.id) = some b ∧
    (∀ x ∈ (saveBalancePure st b).balance, x.id = b.id → x = b) ∧
    (saveTokenPure st t).token.find? (fun x => x.id = t.id) = some t ∧
    (∀ x ∈ (saveTokenPure st t).token, x.id = t.id → x = t) := by
  refine ⟨?_, ?_, ?_, ?_⟩
  · exact find?_upsertBy Balance.id b st.balance
  · exact fun x hx hid => upsertBy_mem_eq Balance.id b st.balance hx hid
  · exact find?_upsertBy Token.id t st.token
  · exact fun x hx hid => upsertBy_mem_eq Token.id t st.token hx hid

/-- C2 witness: upserting the changed `addr1-7` balance over the existing one
(and `tokA` over an empty token table) leaves exactly the second write. -/
theorem c2_witness :
    (saveBalancePure (saveBalancePure emptyDB balOld) balNew).balance.find?
        (fun x => x.id = balNew.id) = some balNew ∧
    (∀ x ∈ (saveBalancePure (saveBalancePure emptyDB balOld) balNew).balance,
        x.id = balNew.id → x = balNew) ∧
    (saveTokenPure (saveBalancePure emptyDB balOld) tokA).token.find?
        (fun x => x.id = tokA.id) = some tokA ∧
    (∀ x ∈ (saveTokenPure (saveBalancePure emptyDB balOld) tokA).token,
        x.id = tokA.id → x = tokA) :=
  c2_save_overwrites_whole_row (saveBalancePure emptyDB balOld) balNew tokA

/-- C3: `clear_all_tables` resets `token`, `balance`, `pending_inscriptions`,
`otc` and `otc_record` but never touches the `event` table — contradicting its
own name and the six-table reset the spec describes: on a store whose event
table holds rows, those rows survive the call. -/
theorem c3_clear_all_tables_misses_event :
    (clear_all_tables dbDup).event = dbDup.event ∧ dbDup.event ≠ [] ∧
    (clear_all_tables dbDup).token = [] ∧ (clear_all_tables dbDup).balance = [] ∧
    (clear_all_tables dbDup).pending_inscriptions = [] ∧
    (clear_all_tables dbDup).otc = [] ∧ (clear_all_tables dbDup).otc_record = [] := by
  refine ⟨rfl, ?_, rfl, rfl, rfl, rfl, rfl⟩
  decide

/-- C4: `get_balance` builds the composite key `{address}-{token_id}`: after
saving a balance with exactly that id it returns that row, and on a store
holding no row under that key it returns the not-found signal. -/
theorem c4_get_balance_composite_key (st : DB) (a : String) (t : Int) (b : Balance)
    (hid : b.id = s!"{a}-{t}")
    (hmiss : ∀ x ∈ st.balance, x.id ≠ s!"{a}-{t}") :
    get_balance false (saveBalancePure st b) a t = Except.ok (some b) ∧
    get_balance false st a t = Except.ok none := by
  constructor
  · show Except.ok ((saveBalancePure st b).balance.find?
      (fun x => x.id = s!"{a}-{t}")) = _
    rw [← hid]
    exact congrArg Except.ok (find?_upsertBy Balance.id b st.balance)
  · show Except.ok (st.balance.find? (fun x => x.id = s!"{a}-{t}")) = _
    rw [List.find?_eq_none.mpr (fun x hx => by simpa using hmiss x hx)]

/-- C4 witness: `get_balance "addr1" 7` after saving the `addr1-7` row returns
it; on the empty store it returns not-found. -/
theorem c4_witness :
    get_balance false (saveBalancePure emptyDB balNew) "addr1" 7 =
      Except.ok (some balNew) ∧
    get_balance false emptyDB "addr1" 7 = Except.ok none :=
  c4_get_balance_composite_key emptyDB "addr1" 7 balNew (by decide) (by decide)

/-- C5: for each of the six entity kinds, saving the same instance twice in
succession leaves the store exactly as saving it once, and (on a store whose
table has no duplicate keys, as every reachable store does) exactly one row
carries the instance's primary key afterwards. -/
theorem c5_upsert_idempotent (st : DB) (e : Event) (p : Pending_Inscriptions)
    (t : Token) (b : Balance) (o : OTC) (r : OTC_Record)
    (hE : (st.event.map Event.id).Nodup)
    (hP : (st.pending_inscriptions.map Pending_Inscriptions.id).Nodup)
    (hT : (st.token.map Token.id).Nodup)
    (hB : (st.balance.map Balance.id).Nodup)
    (hO : (st.otc.map OTC.id).Nodup)
    (hR : (st.otc_record.map OTC_Record.id).Nodup) :
    (saveEventPure (saveEventPure st e) e = saveEventPure st e ∧
      ((saveEventPure st e).event.map Event.id).count e.id = 1) ∧
    (savePendingPure (savePendingPure st p) p = savePendingPure st p ∧
      ((savePendingPure st p).pending_inscriptions.map
        Pending_Inscriptions.id).count p.id = 1) ∧
    (saveTokenPure (saveTokenPure st t) t = saveTokenPure st t ∧
      ((saveTokenPure st t).token.map Token.id).count t.id = 1) ∧
    (saveBalancePure (saveBalancePure st b) b = saveBalancePure st b ∧
      ((saveBalancePure st b).balance.map Balance.id).count b.id = 1) ∧
    (saveOtcPure (saveOtcPure st o) o = saveOtcPure st o ∧
      ((saveOtcPure st o).otc.map OTC.id).count o.id = 1) ∧
    (saveOtcRecordPure (saveOtcRecordPure st r) r = saveOtcRecordPure st r ∧
      ((saveOtcRecordPure st r).otc_record.map OTC_Record.id).count r.id = 1) := by
  refine ⟨⟨?_, ?_⟩, ⟨?_, ?_⟩, ⟨?_, ?_⟩, ⟨?_, ?_⟩, ⟨?_, ?_⟩, ⟨?_, ?_⟩⟩
  · simp [saveEventPure, upsertBy_idem]
  · exact count_key_upsertBy Event.id e st.event hE
  · simp [savePendingPure, upsertBy_idem]
  · exact count_key_upsertBy Pending_Inscriptions.id p st.pending_inscriptions hP
  · simp [saveTokenPure, upsertBy_idem]
  · exact count_key_upsertBy Token.id t st.token hT
  · simp [saveBalancePure, upsertBy_idem]
  · exact count_key_upsertBy Balance.id b st.balance hB
  · simp [saveOtcPure, upsertBy_idem]
  · exact count_key_upsertBy OTC.id o st.otc hO
  · simp [saveOtcRecordPure, upsertBy_idem]
  · exact count_key_upsertBy OTC_Record.id r st.otc_record hR

/-- C5 witness: double-saving each sample instance onto the empty store. -/
theorem c5_witness :
    (saveEventPure (saveEventPure emptyDB evA) evA = saveEventPure emptyDB evA ∧
      ((saveEventPure emptyDB evA).event.map Event.id).count evA.id = 1) ∧
    (savePendingPure (savePendingPure emptyDB pendA) pendA =
        savePendingPure emptyDB pendA ∧
      ((savePendingPure emptyDB pendA).pending_inscriptions.map
        Pending_Inscriptions.id).count pendA.id = 1) ∧
    (saveTokenPure (saveTokenPure emptyDB tokA) tokA = saveTokenPure emptyDB tokA ∧
      ((saveTokenPure emptyDB tokA).token.map Token.id).count tokA.id = 1) ∧
    (saveBalancePure (saveBalancePure emptyDB balOld) balOld =
        saveBalancePure emptyDB balOld ∧
      ((saveBalancePure emptyDB balOld).balance.map Balance.id).count balOld.id = 1) ∧
    (saveOtcPure (saveOtcPure emptyDB otcA) otcA = saveOtcPure emptyDB otcA ∧
      ((saveOtcPure emptyDB otcA).otc.map OTC.id).count otcA.id = 1) ∧
    (saveOtcRecordPure (saveOtcRecordPure emptyDB recA) recA =
        saveOtcRecordPure emptyDB recA ∧
      ((saveOtcRecordPure emptyDB recA).otc_record.map
        OTC_Record.id).count recA.id = 1) :=
  c5_upsert_idempotent emptyDB evA pendA tokA balOld otcA recA
    (by decide) (by decide) (by decide) (by decide) (by decide) (by decide)

/-- C6: each batch save is one atomic multi-row statement: a successful call
applies every row of the batch, and a call on which the backend faults at any
row of the batch raises and leaves the store untouched — never a partial
application. -/
theorem c6_batch_atomicity (failAt : Option Nat) (st st2 : DB)
    (bs : List Balance) (ts : List Token) :
    (batch_save_balances failAt st bs = Except.ok st2 → st2 = applyBalances st bs) ∧
    (∀ k, k < bs.length →
      batch_save_balances (some k) st bs =
        Except.error "Pgsql::batch_save_balances: Failed to batch save balances") ∧
    (batch_save_balances_in_dict failAt st bs = Except.ok st2 →
      st2 = applyBalances st bs) ∧
    (∀ k, k < bs.length →
      batch_save_balances_in_dict (some k) st bs =
        Except.error "Pgsql::batch_save_balances_in_dict: Failed to batch save balances") ∧
    (batch_save_tokens_in_dict failAt st ts = Except.ok st2 →
      st2 = applyTokens st ts) ∧
    (∀ k, k < ts.length →
      batch_save_tokens_in_dict (some k) st ts =
        Except.error "Pgsql::batch_save_tokens_in_dict: Failed to save token") := by
  refine ⟨?_, ?_, ?_, ?_, ?_, ?_⟩
  · intro hok
    cases failAt with
    | none => exact (Except.ok.inj hok).symm
    | some k =>
        simp only [batch_save_balances] at hok
        by_cases hk : k < bs.length
        · rw [if_pos hk] at hok
          exact absurd hok (by simp)
        · rw [if_neg hk] at hok
          exact (Except.ok.inj hok).symm
  · intro k hk
    simp only [batch_save_balances]
    rw [if_pos hk]
  · intro hok
    cases failAt with
    | none => exact (Except.ok.inj hok).symm
    | some k =>
        simp only [batch_save_balances_in_dict] at hok
        by_cases hk : k < bs.length
        · rw [if_pos hk] at hok
          exact absurd hok (by simp)
        · rw [if_neg hk] at hok
          exact (Except.ok.inj hok).symm
  · intro k hk
    simp only [batch_save_balances_in_dict]
    rw [if_pos hk]
  · intro hok
    cases failAt with
    | none => exact (Except.ok.inj hok).symm
    | some k =>
        simp only [batch_save_tokens_in_dict] at hok
        by_cases hk : k < ts.length
        · rw [if_pos hk] at hok
          exact absurd hok (by simp)
        · rw [if_neg hk] at hok
          exact (Except.ok.inj hok).symm
  · intro k hk
    simp only [batch_save_tokens_in_dict]
    rw [if_pos hk]

/-- C6 witness: a two-row balance batch (and a one-row token batch) faulted at
row 0 raises; an unfaulted call applies the whole batch. -/
theorem c6_witness :
    (batch_save_balances (some 0) emptyDB [balOld, balNew] =
        Except.ok (applyBalances emptyDB [balOld, balNew]) →
      applyBalances emptyDB [balOld, balNew] = applyBalances emptyDB [balOld, balNew]) ∧
    (∀ k, k < ([balOld, balNew] : List Balance).length →
      batch_save_balances (some k) emptyDB [balOld, balNew] =
        Except.error "Pgsql::batch_save_balances: Failed to batch save balances") ∧
    (batch_save_balances_in_dict (some 0) emptyDB [balOld, balNew] =
        Except.ok (applyBalances emptyDB [balOld, balNew]) →
      applyBalances emptyDB [balOld, balNew] = applyBalances emptyDB [balOld, balNew]) ∧
    (∀ k, k < ([balOld, balNew] : List Balance).length →
      batch_save_balances_in_dict (some k) emptyDB [balOld, balNew] =
        Except.error "Pgsql::batch_save_balances_in_dict: Failed to batch save balances") ∧
    (batch_save_tokens_in_dict (some 0) emptyDB [tokA] =
        Except.ok (applyBalances emptyDB [balOld, balNew]) →
      applyBalances emptyDB [balOld, balNew] = applyTokens emptyDB [tokA]) ∧
    (∀ k, k < ([tokA] : List Token).length →
      batch_save_tokens_in_dict (some k) emptyDB [tokA] =
        Except.error "Pgsql::batch_save_tokens_in_dict: Failed to save token") :=
  c6_batch_atomicity (some 0) emptyDB (applyBalances emptyDB [balOld, balNew])
    [balOld, balNew] [tokA]

/-- C7: every point lookup returns the not-found signal `.ok none` as a normal
value when no row carries the key, while a connectivity/query fault raises a
failure (`.error` with the operation's message) — a signal distinct from
not-found. -/
theorem c7_notfound_vs_failure (st : DB) (tid : Int) (addr a : String) (t : Int)
    (oid : Int)
    (hT : ∀ x ∈ st.token, x.id ≠ tid)
    (hP : ∀ x ∈ st.pending_inscriptions, x.id ≠ addr)
    (hB : ∀ x ∈ st.balance, x.id ≠ s!"{a}-{t}")
    (hO : ∀ x ∈ st.otc, x.id ≠ oid) :
    get_token false st tid = Except.ok none ∧
    get_token true st tid = Except.error "Pgsql::get_token: Failed to get token" ∧
    get_token true st tid ≠ get_token false st tid ∧
    get_pending_inscription false st addr = Except.ok none ∧
    get_pending_inscription true st addr =
      Except.error "Pgsql::get_pending_inscription: Failed to get pending inscriptions" ∧
    get_pending_inscription true st addr ≠ get_pending_inscription false st addr ∧
    get_balance false st a t = Except.ok none ∧
    get_balance true st a t = Except.error "Pgsql::get_balance: Failed to get balance" ∧
    get_balance true st a t ≠ get_balance false st a t ∧
    get_otc false st oid = Except.ok none ∧
    get_otc true st oid = Except.error "Pgsql::get_otc: Failed to get otc" ∧
    get_otc true st oid ≠ get_otc false st oid := by
  refine ⟨?_, rfl, ?_, ?_, rfl, ?_, ?_, rfl, ?_, ?_, rfl, ?_⟩
  · show Except.ok (st.token.find? (fun x => x.id = tid)) = _
    rw [List.find?_eq_none.mpr (fun x hx => by simpa using hT x hx)]
  · intro hc
    exact absurd hc (by simp [get_token])
  · show Except.ok (st.pending_inscriptions.find? (fun x => x.id = addr)) = _
    rw [List.find?_eq_none.mpr (fun x hx => by simpa using hP x hx)]
  · intro hc
    exact absurd hc (by simp [get_pending_inscription])
  · show Except.ok (st.balance.find? (fun x => x.id = s!"{a}-{t}")) = _
    rw [List.find?_eq_none.mpr (fun x hx => by simpa using hB x hx)]
  · intro hc
    exact absurd hc (by simp [get_balance])
  · show Except.ok (st.otc.find? (fun x => x.id = oid)) = _
    rw [List.find?_eq_none.mpr (fun x hx => by simpa using hO x hx)]
  · intro hc
    exact absurd hc (by simp [get_otc])

/-- C7 witness: `get_token 999999` on the empty store is not-found, not a
failure; the faulted call raises a distinct failure signal. -/
theorem c7_witness :
    get_token false emptyDB 999999 = Except.ok none ∧
    get_token true emptyDB 999999 =
      Except.error "Pgsql::get_token: Failed to get token" ∧
    get_token true emptyDB 999999 ≠ get_token false emptyDB 999999 ∧
    get_pending_inscription false emptyDB "addr1" = Except.ok none ∧
    get_pending_inscription true emptyDB "addr1" =
      Except.error "Pgsql::get_pending_inscription: Failed to get pending inscriptions" ∧
    get_pending_inscription true emptyDB "addr1" ≠
      get_pending_inscription false emptyDB "addr1" ∧
    get_balance false emptyDB "addr1" 8 = Except.ok none ∧
    get_balance true emptyDB "addr1" 8 =
      Except.error "Pgsql::get_balance: Failed to get balance" ∧
    get_balance true emptyDB "addr1" 8 ≠ get_balance false emptyDB "addr1" 8 ∧
    get_otc false emptyDB 11 = Except.ok none ∧
    get_otc true emptyDB 11 = Except.error "Pgsql::get_otc: Failed to get otc" ∧
    get_otc true emptyDB 11 ≠ get_otc false emptyDB 11 :=
  c7_notfound_vs_failure emptyDB 999999 "addr1" "addr1" 8 11
    (by decide) (by decide) (by decide) (by decide)

/-- C8 (counterexample): the claim says every unspecified numeric-accumulator
column defaults to zero for every entity kind, but the `balance` and `otc`
schemas declare no defaults at all: an insert leaving `balance.balance` (or
`otc.received`) unspecified stores SQL NULL, not zero. -/
theorem c8_counterexample :
    (insertRow balanceColumns [("id", Value.str "A-1")]).lookup "balance" =
      some Value.null ∧
    Value.null ≠ Value.num 0 ∧
    (insertRow otcColumns [("id", Value.num 1)]).lookup "received" =
      some Value.null := by
  refine ⟨?_, by decide, ?_⟩ <;> decide

/-- C8 (amended): column defaults are declared only on the `token` and
`pending_inscriptions` schemas — token's mint/upgrade accumulators default to
zero, `first_id`/`last_id` to the empty string, `upgrade_records` and
`pending_inscriptions.inscriptions` to the empty list — while every column of
`event`, `balance`, `otc` and `otc_record` has no declared default, so an
unspecified column is stored as NULL. -/
theorem c8_declared_defaults :
    (insertRow tokenColumns [("id", Value.num 7)]).lookup "first_number" =
      some (Value.num 0) ∧
    (insertRow tokenColumns [("id", Value.num 7)]).lookup "first_time" =
      some (Value.num 0) ∧
    (insertRow tokenColumns [("id", Value.num 7)]).lookup "last_number" =
      some (Value.num 0) ∧
    (insertRow tokenColumns [("id", Value.num 7)]).lookup "last_time" =
      some (Value.num 0) ∧
    (insertRow tokenColumns [("id", Value.num 7)]).lookup "minted" =
      some (Value.num 0) ∧
    (insertRow tokenColumns [("id", Value.num 7)]).lookup "burned" =
      some (Value.num 0) ∧
    (insertRow tokenColumns [("id", Value.num 7)]).lookup "circulating" =
      some (Value.num 0) ∧
    (insertRow tokenColumns [("id", Value.num 7)]).lookup "holders" =
      some (Value.num 0) ∧
    (insertRow tokenColumns [("id", Value.num 7)]).lookup "last_upgrade_time" =
      some (Value.num 0) ∧
    (insertRow tokenColumns [("id", Value.num 7)]).lookup "first_id" =
      some (Value.str "") ∧
    (insertRow tokenColumns [("id", Value.num 7)]).lookup "last_id" =
      some (Value.str "") ∧
    (insertRow tokenColumns [("id", Value.num 7)]).lookup "upgrade_records" =
      some (Value.arr []) ∧
    (insertRow pendingColumns [("id", Value.str "addr1")]).lookup "inscriptions" =
      some (Value.arr []) ∧
    (∀ c ∈ eventColumns, c.dflt = none) ∧
    (∀ c ∈ balanceColumns, c.dflt = none) ∧
    (∀ c ∈ otcColumns, c.dflt = none) ∧
    (∀ c ∈ otcRecordColumns, c.dflt = none) ∧
    (insertRow balanceColumns [("id", Value.str "A-1")]).lookup
      "available_balance" = some Value.null ∧
    (insertRow otcColumns [("id", Value.num 1)]).lookup "supply" =
      some Value.null := by
  decide

/-- C9 (counterexample): the claim says no reachable store holds two Event
rows with the same `(block_height, block_index)`; two `save_event` calls with
distinct ids and the same pair produce exactly that. -/
theorem c9_counterexample :
    Reachable dbDup ∧ evDup1 ∈ dbDup.event ∧ evDup2 ∈ dbDup.event ∧
    evDup1 ≠ evDup2 ∧ evDup1.block_height = evDup2.block_height ∧
    evDup1.block_index = evDup2.block_index :=
  ⟨Reachable.saveEvent _ evDup2 (Reachable.saveEvent _ evDup1 Reachable.empty),
   by decide, by decide, by decide, by decide, by decide⟩

/-- C9 (amended): the layer's upsert enforces uniqueness only on the event
`id` column: in every store reachable through this layer's save operations,
no two Event rows share the same `id`; uniqueness of `(block_height,
block_index)` is not enforced and is a caller obligation. -/
theorem c9_event_id_unique (st : DB) (h : Reachable st) :
    (st.event.map Event.id).Nodup := by
  induction h with
  | empty => simp [emptyDB]
  | saveEvent st e _ ih => exact nodup_map_key_upsertBy Event.id e st.event ih
  | savePending st p _ ih => exact ih
  | saveToken st t _ ih => exact ih
  | saveBalance st b _ ih => exact ih
  | saveOtc st o _ ih => exact ih
  | saveOtcRecord st r _ ih => exact ih
  | batchBalances st bs _ ih => exact ih
  | batchTokens st ts _ ih => exact ih
  | clearAll st _ ih => exact ih

/-- C9 witness: the two-event store reached by two saves has pairwise
distinct event ids. -/
theorem c9_witness : (dbDup.event.map Event.id).Nodup :=
  c9_event_id_unique dbDup
    (Reachable.saveEvent _ evDup2 (Reachable.saveEvent _ evDup1 Reachable.empty))

/-- C10: with no matching rows, `get_otc_records` and
`get_events_by_block_height` return the empty list (`.ok (some [])`), and on
no input whatsoever can either return the not-found signal `.ok none`: the
`None`-check after a successful fetch is dead code. -/
theorem c10_empty_results (st : DB) (oid : Int) (h : Int)
    (hR : ∀ x ∈ st.otc_record, x.oid ≠ oid)
    (hE : ∀ x ∈ st.event, x.block_height ≠ h) :
    get_otc_records false st oid = Except.ok (some []) ∧
    get_events_by_block_height false st h = Except.ok (some []) ∧
    (∀ (st2 : DB) (j : Int), get_otc_records false st2 j ≠ Except.ok none) ∧
    (∀ (st2 : DB) (j : Int),
      get_events_by_block_height false st2 j ≠ Except.ok none) := by
  refine ⟨?_, ?_, ?_, ?_⟩
  · show Except.ok (some (st.otc_record.filter (fun x => x.oid = oid))) = _
    rw [List.filter_eq_nil_iff.mpr (fun x hx => by simpa using hR x hx)]
  · show Except.ok (some ((st.event.filter
      (fun x => x.block_height = h)).insertionSort evLe)) = _
    rw [List.filter_eq_nil_iff.mpr (fun x hx => by simpa using hE x hx)]
    rfl
  · intro st2 j hc
    have : some (st2.otc_record.filter (fun x => x.oid = j)) = none :=
      Except.ok.inj hc
    exact Option.noConfusion this
  · intro st2 j hc
    have : some ((st2.event.filter
        (fun x => x.block_height = j)).insertionSort evLe) = none :=
      Except.ok.inj hc
    exact Option.noConfusion this

/-- C10 witness: the empty store yields `.ok (some [])` for both set
lookups. -/
theorem c10_witness :
    get_otc_records false emptyDB 5 = Except.ok (some []) ∧
    get_events_by_block_height false emptyDB 77 = Except.ok (some []) ∧
    (∀ (st2 : DB) (j : Int), get_otc_records false st2 j ≠ Except.ok none) ∧
    (∀ (st2 : DB) (j : Int),
      get_events_by_block_height false st2 j ≠ Except.ok none) :=
  c10_empty_results emptyDB 5 77 (by decide) (by decide)

end Orc20
